import Mathlib

/-!
Verification of the authenticated HTTP client of the Pasos fitness app
(token storage, single-flight refresh interceptor, auth service).

The repository contains two parallel axios API clients
(`apiClient` in the steps-service bundle, called "client A" below, and a
second `apiClient`, "client B"), a token-storage utility with a
web (localStorage) and a native (Capacitor Preferences) backing, and
`authService.refreshToken`.

The concurrency model follows the code's own setting: a single-threaded
event loop where all interceptor logic between `await` suspension points
runs atomically.  Each `await` in the source is a suspension point.
A scenario of N simultaneous 401 responses is embedded as: the N error
handlers' synchronous entry segments run first (they were all enqueued
before the first handler's first `await` continuation could run, and the
microtask queue is FIFO), then the triggering handler's refresh
continuation runs to completion, with the environment choosing the
refresh endpoint's answer.
-/

/-- The token store: the pair of values stored under the access-token and
refresh-token keys (`none` = key absent). -/
structure Store where
  access : Option String
  refresh : Option String
deriving Repr, DecidableEq

/-- Errors a request's promise can be rejected with, as distinguishable
values.  `original rid` is the original `AxiosError` (401 response) of
request `rid`; `noRefreshToken` is `Error('No refresh token available')`;
`refreshFailed` is `Error('Token refresh failed')`; `network` is the
error thrown by the `axios.post` refresh call itself. -/
inductive Err where
  | original (rid : Nat)
  | noRefreshToken
  | refreshFailed
  | network
deriving Repr, DecidableEq

/-- How one request eventually resolves: its replay was issued carrying
the given new bearer token, or its promise was rejected with an error. -/
inductive Outcome where
  | replayed (token : String)
  | rejected (e : Err)
deriving Repr, DecidableEq

/-- Environment's answer to the `POST /auth/refresh` call: the promise
resolved with body `{ success, data: { token, refreshToken } }`, or the
call threw (network failure / non-2xx status). -/
inductive RefreshResult where
  | ok (success : Bool) (token : String) (refreshToken : String)
  | thrown
deriving Repr, DecidableEq

/-- Module-level state of the interceptor pipeline plus the bookkeeping
an observer records: `isRefreshing` and `queue` are the source's
`isRefreshing` flag and `failedRequestsQueue` (queue entries identified by
request id), `store` the token store, `refreshCalls` the number of times
the refresh endpoint has been invoked, `replays` the request ids in the
order their replays were issued, `outcomes` the resolution of each
settled request in settlement order, and `retried` the set of request
configs on which `_retry` has been set. -/
structure PState where
  isRefreshing : Bool
  queue : List Nat
  store : Store
  refreshCalls : Nat
  replays : List Nat
  outcomes : List (Nat × Outcome)
  retried : List Nat
deriving Repr, DecidableEq

/-- Initial pipeline state over a given token store. -/
def initState (store : Store) : PState :=
  { isRefreshing := false, queue := [], store := store, refreshCalls := 0,
    replays := [], outcomes := [], retried := [] }

/-- What the synchronous entry segment of the response-error handler did
with the failed request: passed the error through unchanged, appended a
pending record to the queue, or set `_retry` and the flag and proceeded
into the refresh flow. -/
inductive EntryAction where
  | passthrough
  | enqueued
  | startedRefresh
deriving Repr, DecidableEq

/-- Entry segment of the response-error handler (client A; client B is
line-for-line the same here).  Runs atomically: from handler entry up to
the first `await` (`getRefreshToken`).  `status` is
`error.response?.status` (`none` = no HTTP response at all), `retry` the
request's `_retry` marker.  Source: the `if (error.response?.status ===
401 && !originalRequest._retry)` guard, the `isRefreshing` queueing
branch, and the `originalRequest._retry = true; isRefreshing = true`
prologue of the refresh path. -/
def entryStep (rid : Nat) (retry : Bool) (status : Option Nat) (s : PState) :
    EntryAction × PState :=
  if status = some 401 ∧ retry = false then
    if s.isRefreshing then
      (.enqueued, { s with queue := s.queue ++ [rid] })
    else
      (.startedRefresh,
       { s with isRefreshing := true, retried := s.retried ++ [rid] })
  else
    (.passthrough, { s with outcomes := s.outcomes ++ [(rid, .rejected (.original rid))] })

/-- `processQueue(error, token)` of client A: iterates the queue in order;
with an error every pending record is rejected with that error; otherwise
with a token every pending record's `resolve(token)` runs, which
synchronously issues the replay of its request with the new token; the
queue is then emptied. -/
def processQueue (error : Option Err) (token : Option String) (s : PState) : PState :=
  match error, token with
  | some e, _ =>
      { s with outcomes := s.outcomes ++ s.queue.map (fun r => (r, .rejected e)),
               queue := [] }
  | none, some t =>
      { s with replays := s.replays ++ s.queue,
               outcomes := s.outcomes ++ s.queue.map (fun r => (r, .replayed t)),
               queue := [] }
  | none, none => { s with queue := [] }

/-- Refresh continuation of client A's error handler for triggering
request `rid`: everything from `await getRefreshToken()` to the `finally
{ isRefreshing = false }`.  Branches exactly as the source: missing
refresh token → `clearTokens`, `processQueue(noRefreshToken)`, reject
with the original error; refresh resolved with `success: true` →
`setTokens`, `processQueue(null, newToken)`, replay the triggering
request; resolved with `success: false` → `clearTokens`,
`processQueue(refreshFailed)`, reject with the original error; refresh
threw → `clearTokens`, `processQueue(network)`, reject with the thrown
error.  The `finally` clears the flag on every path. -/
def refreshFlow (rid : Nat) (env : RefreshResult) (s : PState) : PState :=
  match s.store.refresh with
  | none =>
      let s1 := { s with store := ⟨none, none⟩ }
      let s2 := processQueue (some .noRefreshToken) none s1
      { s2 with outcomes := s2.outcomes ++ [(rid, .rejected (.original rid))],
                isRefreshing := false }
  | some _ =>
      let s0 := { s with refreshCalls := s.refreshCalls + 1 }
      match env with
      | .ok true t r =>
          let s1 := { s0 with store := ⟨some t, some r⟩ }
          let s2 := processQueue none (some t) s1
          { s2 with replays := s2.replays ++ [rid],
                    outcomes := s2.outcomes ++ [(rid, .replayed t)],
                    isRefreshing := false }
      | .ok false _ _ =>
          let s1 := { s0 with store := ⟨none, none⟩ }
          let s2 := processQueue (some .refreshFailed) none s1
          { s2 with outcomes := s2.outcomes ++ [(rid, .rejected (.original rid))],
                    isRefreshing := false }
      | .thrown =>
          let s1 := { s0 with store := ⟨none, none⟩ }
          let s2 := processQueue (some .network) none s1
          { s2 with outcomes := s2.outcomes ++ [(rid, .rejected .network)],
                    isRefreshing := false }

/-- Run the synchronous entry segments of a list of fresh 401-failed
requests, in arrival order. -/
def runEntries (rids : List Nat) (s : PState) : PState :=
  rids.foldl (fun st r => (entryStep r false (some 401) st).2) s

/-- The full N-simultaneous-401 scenario against client A: all N entry
segments run (FIFO, in arrival order), then the first handler's refresh
continuation runs with the environment's answer `env`. -/
def runScenario (rids : List Nat) (store : Store) (env : RefreshResult) : PState :=
  match rids with
  | [] => initState store
  | r0 :: rest => refreshFlow r0 env (runEntries (r0 :: rest) (initState store))

/-- Refresh continuation of client B's error handler.  Differences from
client A, straight from the source: a missing refresh token is a `throw`
into the `catch` block, so the triggering request is rejected with the
very same `Error('No refresh token available')` that `processQueue`
hands every queued record; the resolved refresh body is destructured
(`accessToken`, `refreshToken`) with no `success` check at all, so any
resolved call counts as success; in the `catch` block `processQueue`
runs before `clearTokens`. -/
def refreshFlowB (rid : Nat) (env : RefreshResult) (s : PState) : PState :=
  match s.store.refresh with
  | none =>
      let s1 := processQueue (some .noRefreshToken) none s
      let s2 := { s1 with store := ⟨none, none⟩ }
      { s2 with outcomes := s2.outcomes ++ [(rid, .rejected .noRefreshToken)],
                isRefreshing := false }
  | some _ =>
      let s0 := { s with refreshCalls := s.refreshCalls + 1 }
      match env with
      | .ok _ t r =>
          let s1 := { s0 with store := ⟨some t, some r⟩ }
          let s2 := processQueue none (some t) s1
          { s2 with replays := s2.replays ++ [rid],
                    outcomes := s2.outcomes ++ [(rid, .replayed t)],
                    isRefreshing := false }
      | .thrown =>
          let s1 := processQueue (some .network) none s0
          let s2 := { s1 with store := ⟨none, none⟩ }
          { s2 with outcomes := s2.outcomes ++ [(rid, .rejected .network)],
                    isRefreshing := false }

/-- The N-simultaneous-401 scenario against client B. -/
def runScenarioB (rids : List Nat) (store : Store) (env : RefreshResult) : PState :=
  match rids with
  | [] => initState store
  | r0 :: rest => refreshFlowB r0 env (runEntries (r0 :: rest) (initState store))

/-! ### Token storage (`tokenStorage.ts`)

`setTokens` is embedded as the sequence of elementary storage writes it
performs, with a `suspend` marker wherever the source has an `await`
boundary between two writes.  On the event loop a concurrent reader
(`getToken` / `getRefreshToken`) can run exactly at the start, at each
suspension point, and at the end of the writer's execution, so those are
the observable store states. -/

/-- One elementary operation of the storage layer. -/
inductive StoreOp where
  | setAccess (v : String)
  | setRefresh (v : String)
  | removeAccess
  | removeRefresh
  | suspend
deriving Repr, DecidableEq

/-- Effect of one elementary storage operation on the store. -/
def applyOp (s : Store) : StoreOp → Store
  | .setAccess v => { s with access := some v }
  | .setRefresh v => { s with refresh := some v }
  | .removeAccess => { s with access := none }
  | .removeRefresh => { s with refresh := none }
  | .suspend => s

/-- Run a list of storage operations to completion. -/
def runOps (s : Store) (ops : List StoreOp) : Store := ops.foldl applyOp s

/-- Store states at the interior suspension points of an operation list. -/
def midStates (s : Store) : List StoreOp → List Store
  | [] => []
  | .suspend :: ops => s :: midStates s ops
  | .setAccess v :: ops => midStates (applyOp s (.setAccess v)) ops
  | .setRefresh v :: ops => midStates (applyOp s (.setRefresh v)) ops
  | .removeAccess :: ops => midStates (applyOp s .removeAccess) ops
  | .removeRefresh :: ops => midStates (applyOp s .removeRefresh) ops

/-- All store states a concurrent reader can observe while the operation
list executes: the initial state, each suspension-point state, and the
final state. -/
def observableStates (s : Store) (ops : List StoreOp) : List Store :=
  s :: midStates s ops ++ [runOps s ops]

/-- `setTokens` of the first `tokenStorage` variant on native: `await
Preferences.set(ACCESS)` then `await Preferences.set(REFRESH)` — a
suspension point sits between the two writes. -/
def setTokensNativeOps (a r : String) : List StoreOp :=
  [.setAccess a, .suspend, .setRefresh r]

/-- `setTokens` on web: two synchronous `localStorage.setItem` calls in
one event-loop turn — no suspension point between them. -/
def setTokensWebOps (a r : String) : List StoreOp :=
  [.setAccess a, .setRefresh r]

/-- `setTokens` of the second `tokenStorage` variant on native:
`Promise.all` of the two `Preferences.set` calls.  The two writes
complete in either order with a suspension point between the
completions; this is the schedule where the access write lands first. -/
def setTokensNativeAllOpsAF (a r : String) : List StoreOp :=
  [.setAccess a, .suspend, .setRefresh r]

/-- The `Promise.all` schedule where the refresh write lands first. -/
def setTokensNativeAllOpsRF (a r : String) : List StoreOp :=
  [.setRefresh r, .suspend, .setAccess a]

/-! ### Refresh-response parsing (claim about the two schemas)

A refresh-endpoint response body, as a JSON-ish record in which every
field may be absent.  Client A expects `{ success, data: { token,
refreshToken } }`; client B expects top-level `{ accessToken,
refreshToken }`.  A JS object can of course carry all of these fields at
once. -/

/-- The `data` object of client A's expected refresh body. -/
structure RefreshData where
  token : Option String
  refreshToken : Option String
deriving Repr, DecidableEq

/-- A refresh-endpoint response body; `none` marks an absent field. -/
structure RefreshBody where
  success : Option Bool
  data : Option RefreshData
  accessToken : Option String
  refreshToken : Option String
deriving Repr, DecidableEq

/-- Token pair client A stores for a resolved refresh body, or `none`
when the attempt is treated as a failure: the code requires
`refreshResponse.data.success` to be `true` (else the refresh-failed
branch runs), and with `success` true but `data` absent the read
`refreshResponse.data.data.token` throws into the `catch` branch. -/
def storedPairA (body : RefreshBody) : Option (Option String × Option String) :=
  match body.success, body.data with
  | some true, some d => some (d.token, d.refreshToken)
  | some true, none => none
  | _, _ => none

/-- Token pair client B stores for a resolved refresh body: it
destructures `response.data` with no check whatsoever, so absent fields
are stored as absent values and no resolved body is treated as a
failure. -/
def storedPairB (body : RefreshBody) : Option (Option String × Option String) :=
  some (body.accessToken, body.refreshToken)

/-! ### `authService.refreshToken` -/

/-- Environment's answer to the `apiClient.post('/auth/refresh', ...)`
call made by `authService.refreshToken`: the promise resolved with body
`{ success, data: { token, refreshToken } }`, or it threw. -/
inductive AuthRefreshEnv where
  | resolved (success : Bool) (token : String) (refreshToken : String)
  | thrown
deriving Repr, DecidableEq

/-- `authService.refreshToken`, as a total function from the stored
tokens and the environment's answer to the returned boolean and the
resulting store.  Mirrors the source: missing refresh token → `false`
with the store untouched; call threw → `catch` clears tokens, `false`;
resolved with `success` false → clear tokens, `false`; resolved with
`success` true → `setTokens`, `true`. -/
def authRefreshToken (store : Store) (env : AuthRefreshEnv) : Bool × Store :=
  match store.refresh with
  | none => (false, store)
  | some _ =>
      match env with
      | .resolved true t r => (true, ⟨some t, some r⟩)
      | .resolved false _ _ => (false, ⟨none, none⟩)
      | .thrown => (false, ⟨none, none⟩)

/-! ### Closed forms of the scenario executor -/

/-- Unfolding one entry segment of `runEntries`. -/
lemma runEntries_cons (r : Nat) (rs : List Nat) (s : PState) :
    runEntries (r :: rs) s = runEntries rs (entryStep r false (some 401) s).2 := rfl

/-- While the flag is set, every further 401 entry segment only appends
its request to the queue. -/
lemma runEntries_refreshing (rids : List Nat) : ∀ (s : PState),
    s.isRefreshing = true → runEntries rids s = { s with queue := s.queue ++ rids } := by
  induction rids with
  | nil =>
      intro s h
      simp [runEntries]
  | cons r rs ih =>
      intro s h
      rw [runEntries_cons]
      have h2 : (entryStep r false (some 401) s).2 = { s with queue := s.queue ++ [r] } := by
        simp [entryStep, h]
      rw [h2, ih _ (by simp [h])]
      simp

/-- The entry wave of a fresh 401 burst: the first handler sets `_retry`
and the flag, every later handler queues, in arrival order. -/
lemma runEntries_closed (r0 : Nat) (rest : List Nat) (store : Store) :
    runEntries (r0 :: rest) (initState store)
      = ⟨true, rest, store, 0, [], [], [r0]⟩ := by
  rw [runEntries_cons]
  have h1 : (entryStep r0 false (some 401) (initState store)).2
      = ⟨true, [], store, 0, [], [], [r0]⟩ := by
    simp [entryStep, initState]
  rw [h1, runEntries_refreshing rest _ rfl]
  rfl

/-- The client-A scenario is the refresh continuation applied to the
entry wave's final state. -/
lemma runScenario_cons (r0 : Nat) (rest : List Nat) (store : Store) (env : RefreshResult) :
    runScenario (r0 :: rest) store env
      = refreshFlow r0 env ⟨true, rest, store, 0, [], [], [r0]⟩ := by
  show refreshFlow r0 env (runEntries (r0 :: rest) (initState store)) = _
  rw [runEntries_closed]

/-- The client-B scenario is the client-B refresh continuation applied
to the entry wave's final state. -/
lemma runScenarioB_cons (r0 : Nat) (rest : List Nat) (store : Store) (env : RefreshResult) :
    runScenarioB (r0 :: rest) store env
      = refreshFlowB r0 env ⟨true, rest, store, 0, [], [], [r0]⟩ := by
  show refreshFlowB r0 env (runEntries (r0 :: rest) (initState store)) = _
  rw [runEntries_closed]

/-- Client A, missing refresh token: tokens cleared, queued requests
rejected with the `noRefreshToken` error, the trigger rejected with its
original error, flag cleared, refresh endpoint never called. -/
lemma runScenario_noToken (r0 : Nat) (rest : List Nat) (a : Option String)
    (env : RefreshResult) :
    runScenario (r0 :: rest) ⟨a, none⟩ env
      = ⟨false, [], ⟨none, none⟩, 0, [],
         rest.map (fun x => (x, Outcome.rejected Err.noRefreshToken))
           ++ [(r0, Outcome.rejected (Err.original r0))], [r0]⟩ := by
  rw [runScenario_cons]; rfl

/-- Client A, refresh resolved with `success: true`: new pair stored,
queued requests then the trigger replayed with the new token, flag
cleared, one refresh call. -/
lemma runScenario_ok (r0 : Nat) (rest : List Nat) (a : Option String) (rt t r : String) :
    runScenario (r0 :: rest) ⟨a, some rt⟩ (.ok true t r)
      = ⟨false, [], ⟨some t, some r⟩, 1, rest ++ [r0],
         rest.map (fun x => (x, Outcome.replayed t)) ++ [(r0, Outcome.replayed t)],
         [r0]⟩ := by
  rw [runScenario_cons]; rfl

/-- Client A, refresh resolved with `success: false`: tokens cleared,
queued requests rejected with the `refreshFailed` error, the trigger
rejected with its original error, flag cleared, one refresh call. -/
lemma runScenario_okFalse (r0 : Nat) (rest : List Nat) (a : Option String) (rt t r : String) :
    runScenario (r0 :: rest) ⟨a, some rt⟩ (.ok false t r)
      = ⟨false, [], ⟨none, none⟩, 1, [],
         rest.map (fun x => (x, Outcome.rejected Err.refreshFailed))
           ++ [(r0, Outcome.rejected (Err.original r0))], [r0]⟩ := by
  rw [runScenario_cons]; rfl

/-- Client A, refresh call threw: tokens cleared, every request rejected
with the thrown error, flag cleared, one refresh call. -/
lemma runScenario_thrown (r0 : Nat) (rest : List Nat) (a : Option String) (rt : String) :
    runScenario (r0 :: rest) ⟨a, some rt⟩ .thrown
      = ⟨false, [], ⟨none, none⟩, 1, [],
         rest.map (fun x => (x, Outcome.rejected Err.network))
           ++ [(r0, Outcome.rejected Err.network)], [r0]⟩ := by
  rw [runScenario_cons]; rfl

/-- Client B, missing refresh token: every request, trigger included, is
rejected with the identical `noRefreshToken` error. -/
lemma runScenarioB_noToken (r0 : Nat) (rest : List Nat) (a : Option String)
    (env : RefreshResult) :
    runScenarioB (r0 :: rest) ⟨a, none⟩ env
      = ⟨false, [], ⟨none, none⟩, 0, [],
         rest.map (fun x => (x, Outcome.rejected Err.noRefreshToken))
           ++ [(r0, Outcome.rejected Err.noRefreshToken)], [r0]⟩ := by
  rw [runScenarioB_cons]; rfl

/-- Client B, refresh resolved (any `success` field): new pair stored,
queued requests then the trigger replayed, flag cleared, one call. -/
lemma runScenarioB_ok (r0 : Nat) (rest : List Nat) (a : Option String)
    (su : Bool) (rt t r : String) :
    runScenarioB (r0 :: rest) ⟨a, some rt⟩ (.ok su t r)
      = ⟨false, [], ⟨some t, some r⟩, 1, rest ++ [r0],
         rest.map (fun x => (x, Outcome.replayed t)) ++ [(r0, Outcome.replayed t)],
         [r0]⟩ := by
  rw [runScenarioB_cons]; rfl

/-- Client B, refresh call threw: every request, trigger included, is
rejected with the identical thrown error; tokens cleared. -/
lemma runScenarioB_thrown (r0 : Nat) (rest : List Nat) (a : Option String) (rt : String) :
    runScenarioB (r0 :: rest) ⟨a, some rt⟩ .thrown
      = ⟨false, [], ⟨none, none⟩, 1, [],
         rest.map (fun x => (x, Outcome.rejected Err.network))
           ++ [(r0, Outcome.rejected Err.network)], [r0]⟩ := by
  rw [runScenarioB_cons]; rfl

/-! ### Small helpers about tagged outcome lists -/

/-- Flag value of client A's refresh continuation: cleared on every exit
path. -/
lemma refreshFlow_flag (rid : Nat) (env : RefreshResult) (s : PState) :
    (refreshFlow rid env s).isRefreshing = false := by
  unfold refreshFlow
  split
  · rfl
  · split <;> rfl

/-- Flag value of client B's refresh continuation: cleared on every exit
path. -/
lemma refreshFlowB_flag (rid : Nat) (env : RefreshResult) (s : PState) :
    (refreshFlowB rid env s).isRefreshing = false := by
  unfold refreshFlowB
  split
  · rfl
  · split <;> rfl

/-- Second component of an element of an outcome list of the shape the
scenario closed forms produce. -/
lemma snd_of_mem_tagged {o o2 : Outcome} {rest : List Nat} {r0 : Nat} {p : Nat × Outcome}
    (hp : p ∈ rest.map (fun x => (x, o)) ++ [(r0, o2)]) : p.2 = o ∨ p.2 = o2 := by
  rcases List.mem_append.1 hp with h | h
  · obtain ⟨x, -, rfl⟩ := List.mem_map.1 h
    exact Or.inl rfl
  · rw [List.mem_singleton.1 h]
    exact Or.inr rfl

/-- First components of an outcome list of the shape the scenario closed
forms produce. -/
lemma map_fst_tagged (rest : List Nat) (r0 : Nat) (o o2 : Outcome) :
    (rest.map (fun x => (x, o)) ++ [(r0, o2)]).map Prod.fst = rest ++ [r0] := by
  simp [List.map_map, Function.comp_def]

/-! ### Claim theorems -/

/-- C1, counterexample to the literal claim: with a single request whose
401 arrives while the store holds no refresh token, the interceptor
calls the refresh endpoint zero times, not "exactly once". -/
theorem singleFlight_missing_token_counterexample :
    (runScenario [0] ⟨some "a", none⟩ (.ok true "t" "r")).refreshCalls ≠ 1
    ∧ (runScenario [0] ⟨some "a", none⟩ (.ok true "t" "r")).refreshCalls = 0 := by
  decide

/-- C1, amended: for every burst of N concurrent 401s arriving while no
refresh is underway, the refresh endpoint is called exactly once when a
refresh token is stored and zero times otherwise (so never more than
once), every one of the N requests resolves exactly once (the queued
ones first, in order, then the trigger), and the outcomes are uniform:
either all are replayed with the same new token, or all are rejected. -/
theorem singleFlight_amended (r0 : Nat) (rest : List Nat) (store : Store)
    (env : RefreshResult) :
    (runScenario (r0 :: rest) store env).refreshCalls
        = (if store.refresh = none then 0 else 1)
    ∧ (runScenario (r0 :: rest) store env).refreshCalls ≤ 1
    ∧ (runScenario (r0 :: rest) store env).outcomes.map Prod.fst = rest ++ [r0]
    ∧ ((∃ t, ∀ p ∈ (runScenario (r0 :: rest) store env).outcomes,
            p.2 = Outcome.replayed t)
       ∨ (∀ p ∈ (runScenario (r0 :: rest) store env).outcomes,
            ∃ e, p.2 = Outcome.rejected e)) := by
  obtain ⟨a, rt⟩ := store
  cases rt with
  | none =>
      rw [runScenario_noToken]
      refine ⟨by simp, by simp, map_fst_tagged .., Or.inr ?_⟩
      intro p hp
      rcases snd_of_mem_tagged hp with h | h <;> exact ⟨_, h⟩
  | some rt =>
      cases env with
      | ok su t r =>
          cases su with
          | true =>
              rw [runScenario_ok]
              refine ⟨by simp, by simp, map_fst_tagged .., Or.inl ⟨t, ?_⟩⟩
              intro p hp
              rcases snd_of_mem_tagged hp with h | h <;> exact h
          | false =>
              rw [runScenario_okFalse]
              refine ⟨by simp, by simp, map_fst_tagged .., Or.inr ?_⟩
              intro p hp
              rcases snd_of_mem_tagged hp with h | h <;> exact ⟨_, h⟩
      | thrown =>
          rw [runScenario_thrown]
          refine ⟨by simp, by simp, map_fst_tagged .., Or.inr ?_⟩
          intro p hp
          rcases snd_of_mem_tagged hp with h | h <;> exact ⟨_, h⟩

/-- C1, witness: two concurrent 401s with a refresh token stored make
exactly one refresh call. -/
theorem singleFlight_amended_witness :
    (runScenario [0, 1] ⟨some "a", some "r"⟩ .thrown).refreshCalls
      = (if (Store.mk (some "a") (some "r")).refresh = none then 0 else 1) :=
  (singleFlight_amended 0 [1] ⟨some "a", some "r"⟩ .thrown).1

/-- C2, code bug: requests 0 (trigger) and 1 (queued) both fail with
401 and the refresh succeeds; request 1 is replayed from the queue, but
`_retry` was set only on request 0.  So when request 1's replay fails
with 401 a second time, its handler does not pass the error through: it
starts a second refresh (a second retry of request 1 follows, with no
bound on further rounds), while request 0's second 401 is passed
through as the claim describes. -/
theorem queued_retry_unmarked_bug :
    (runScenario [0, 1] ⟨some "a", some "r"⟩ (.ok true "t" "r2")).replays = [1, 0]
    ∧ 0 ∈ (runScenario [0, 1] ⟨some "a", some "r"⟩ (.ok true "t" "r2")).retried
    ∧ (entryStep 0 true (some 401)
        (runScenario [0, 1] ⟨some "a", some "r"⟩ (.ok true "t" "r2"))).1
        = EntryAction.passthrough
    ∧ 1 ∉ (runScenario [0, 1] ⟨some "a", some "r"⟩ (.ok true "t" "r2")).retried
    ∧ (entryStep 1 false (some 401)
        (runScenario [0, 1] ⟨some "a", some "r"⟩ (.ok true "t" "r2"))).1
        = EntryAction.startedRefresh
    ∧ (refreshFlow 1 (.ok true "t3" "r3")
        (entryStep 1 false (some 401)
          (runScenario [0, 1] ⟨some "a", some "r"⟩ (.ok true "t" "r2"))).2).refreshCalls
        = 2 := by
  decide

/-- C3, counterexample to the literal claim: when the refresh response
has `success: false`, client A rejects the queued caller with
`Error('Token refresh failed')` but the triggering caller with its
original 401 error — not "the same authentication-required error". -/
theorem same_error_counterexample :
    (runScenario [0, 1] ⟨some "a", some "r"⟩ (.ok false "x" "y")).outcomes
      = [(1, Outcome.rejected Err.refreshFailed),
         (0, Outcome.rejected (Err.original 0))]
    ∧ Outcome.rejected Err.refreshFailed ≠ Outcome.rejected (Err.original 0) := by
  decide

/-- C3, amended: the triggering request and every queued request observe
the same kind of outcome — on refresh success all (client A and client
B) are replayed with the same new token and the store holds the new
pair; on refresh failure all are rejected and the store is empty — but
the rejection error is not always the same value: client A hands the
trigger its original error and the queued callers a refresh-failed
error in the `success: false` branch, while in the thrown branch (both
clients) every caller receives the identical error. -/
theorem uniform_outcome_amended (r0 : Nat) (rest : List Nat) (a : Option String)
    (rt : String) (env : RefreshResult) :
    (∀ t r, env = RefreshResult.ok true t r →
        (∀ p ∈ (runScenario (r0 :: rest) ⟨a, some rt⟩ env).outcomes,
            p.2 = Outcome.replayed t)
        ∧ (runScenario (r0 :: rest) ⟨a, some rt⟩ env).store = ⟨some t, some r⟩)
    ∧ (∀ t r, env = RefreshResult.ok false t r →
        (∀ p ∈ (runScenario (r0 :: rest) ⟨a, some rt⟩ env).outcomes,
            ∃ e, p.2 = Outcome.rejected e)
        ∧ (runScenario (r0 :: rest) ⟨a, some rt⟩ env).store = ⟨none, none⟩)
    ∧ (env = RefreshResult.thrown →
        (∀ p ∈ (runScenario (r0 :: rest) ⟨a, some rt⟩ env).outcomes,
            p.2 = Outcome.rejected Err.network)
        ∧ (runScenario (r0 :: rest) ⟨a, some rt⟩ env).store = ⟨none, none⟩)
    ∧ (∀ su t r,
        ∀ p ∈ (runScenarioB (r0 :: rest) ⟨a, some rt⟩ (.ok su t r)).outcomes,
            p.2 = Outcome.replayed t)
    ∧ (∀ p ∈ (runScenarioB (r0 :: rest) ⟨a, some rt⟩ .thrown).outcomes,
            p.2 = Outcome.rejected Err.network) := by
  refine ⟨?_, ?_, ?_, ?_, ?_⟩
  · rintro t r rfl
    rw [runScenario_ok]
    refine ⟨?_, rfl⟩
    intro p hp
    rcases snd_of_mem_tagged hp with h | h <;> exact h
  · rintro t r rfl
    rw [runScenario_okFalse]
    refine ⟨?_, rfl⟩
    intro p hp
    rcases snd_of_mem_tagged hp with h | h <;> exact ⟨_, h⟩
  · rintro rfl
    rw [runScenario_thrown]
    refine ⟨?_, rfl⟩
    intro p hp
    rcases snd_of_mem_tagged hp with h | h <;> exact h
  · intro su t r p hp
    rw [runScenarioB_ok] at hp
    rcases snd_of_mem_tagged hp with h | h <;> exact h
  · intro p hp
    rw [runScenarioB_thrown] at hp
    rcases snd_of_mem_tagged hp with h | h <;> exact h

/-- C3, witness: a successful refresh with one queued request leaves the
new pair in the store. -/
theorem uniform_outcome_amended_witness :
    (runScenario [0, 1] ⟨some "a", some "r"⟩ (.ok true "t" "r2")).store
      = ⟨some "t", some "r2"⟩ :=
  ((uniform_outcome_amended 0 [1] (some "a") "r" (.ok true "t" "r2")).1 "t" "r2" rfl).2

/-- C4, counterexample to the literal claim: on native, `setTokens` of
the first `tokenStorage` variant awaits the access-token write before
starting the refresh-token write, so from initial store
`(a0, r0)` the state `(a1, r0)` — the new access token paired with the
old refresh token, neither the old pair nor the new — is observable by
a concurrent reader at the suspension point between the writes. -/
theorem setTokens_torn_write_counterexample :
    Store.mk (some "a1") (some "r0")
      ∈ observableStates ⟨some "a0", some "r0"⟩ (setTokensNativeOps "a1" "r1")
    ∧ Store.mk (some "a1") (some "r0") ≠ Store.mk (some "a0") (some "r0")
    ∧ Store.mk (some "a1") (some "r0") ≠ Store.mk (some "a1") (some "r1") := by
  decide

/-- C4, amended: on web `setTokens` is atomic — both `localStorage`
writes happen in one synchronous segment, so a concurrent reader only
ever observes the old pair or the new pair — but on native both
`tokenStorage` variants expose a torn state: the sequential variant
always exposes (new access, old refresh), and the `Promise.all` variant
exposes (new access, old refresh) or (old access, new refresh)
depending on which write completes first. -/
theorem setTokens_atomicity_amended (s : Store) (a r : String) :
    (∀ st ∈ observableStates s (setTokensWebOps a r),
        st = s ∨ st = ⟨some a, some r⟩)
    ∧ Store.mk (some a) s.refresh ∈ observableStates s (setTokensNativeOps a r)
    ∧ Store.mk (some a) s.refresh ∈ observableStates s (setTokensNativeAllOpsAF a r)
    ∧ Store.mk s.access (some r) ∈ observableStates s (setTokensNativeAllOpsRF a r) := by
  refine ⟨?_, ?_, ?_, ?_⟩
  · intro st hst
    simp [observableStates, midStates, runOps, applyOp, setTokensWebOps] at hst
    rcases hst with rfl | h
    · exact Or.inl rfl
    · exact Or.inr (by rw [h])
  · simp [observableStates, midStates, runOps, applyOp, setTokensNativeOps]
  · simp [observableStates, midStates, runOps, applyOp, setTokensNativeAllOpsAF]
  · simp [observableStates, midStates, runOps, applyOp, setTokensNativeAllOpsRF]

/-- C4, witness: from an empty store, the web `setTokens` only exposes
the empty store and the full new pair; the native one exposes the
intermediate access-only state. -/
theorem setTokens_atomicity_amended_witness :
    Store.mk (some "a") (some "r0")
      ∈ observableStates ⟨none, some "r0"⟩ (setTokensNativeOps "a" "r") :=
  (setTokens_atomicity_amended ⟨none, some "r0"⟩ "a" "r").2.1

/-- C5: after any 401 wave — refresh success, refresh-call failure,
`success: false` response, or the missing-refresh-token short-circuit,
in either client — the `isRefreshing` flag is false again, and a later
401 entry with the flag clear starts a new refresh rather than queueing
(the flag is never left permanently set). -/
theorem flag_always_cleared (rids : List Nat) (store : Store) (env : RefreshResult)
    (rid : Nat) :
    (runScenario rids store env).isRefreshing = false
    ∧ (runScenarioB rids store env).isRefreshing = false
    ∧ (entryStep rid false (some 401) (runScenario rids store env)).1
        = EntryAction.startedRefresh := by
  have hA : (runScenario rids store env).isRefreshing = false := by
    cases rids with
    | nil => rfl
    | cons r0 rest =>
        rw [runScenario_cons]
        exact refreshFlow_flag r0 env _
  have hB : (runScenarioB rids store env).isRefreshing = false := by
    cases rids with
    | nil => rfl
    | cons r0 rest =>
        rw [runScenarioB_cons]
        exact refreshFlowB_flag r0 env _
  exact ⟨hA, hB, by simp [entryStep, hA]⟩

/-- C6: when a 401 arrives and no refresh token is stored, both clients
clear the token store, reject the triggering request and every queued
request with an authentication-required error, clear the flag, and
never call the refresh endpoint. -/
theorem no_refresh_token_clears_and_rejects (r0 : Nat) (rest : List Nat)
    (a : Option String) (env : RefreshResult) :
    (runScenario (r0 :: rest) ⟨a, none⟩ env).store = ⟨none, none⟩
    ∧ (runScenario (r0 :: rest) ⟨a, none⟩ env).refreshCalls = 0
    ∧ (runScenario (r0 :: rest) ⟨a, none⟩ env).isRefreshing = false
    ∧ (runScenario (r0 :: rest) ⟨a, none⟩ env).outcomes
        = rest.map (fun x => (x, Outcome.rejected Err.noRefreshToken))
            ++ [(r0, Outcome.rejected (Err.original r0))]
    ∧ (runScenarioB (r0 :: rest) ⟨a, none⟩ env).store = ⟨none, none⟩
    ∧ (runScenarioB (r0 :: rest) ⟨a, none⟩ env).refreshCalls = 0
    ∧ (runScenarioB (r0 :: rest) ⟨a, none⟩ env).outcomes
        = rest.map (fun x => (x, Outcome.rejected Err.noRefreshToken))
            ++ [(r0, Outcome.rejected Err.noRefreshToken)] := by
  rw [runScenario_noToken, runScenarioB_noToken]
  exact ⟨rfl, rfl, rfl, rfl, rfl, rfl, rfl⟩

/-- C7: an error whose response status is anything but 401 — including
no response at all (network unreachable, timeout) — is passed through
unchanged by the entry handler in any pipeline state: the caller gets
the original error, and the store, the queue, the flag and the
refresh-call count are untouched. -/
theorem non_401_passthrough (rid : Nat) (retry : Bool) (status : Option Nat)
    (s : PState) (h : status ≠ some 401) :
    entryStep rid retry status s
      = (EntryAction.passthrough,
         { s with outcomes := s.outcomes ++ [(rid, Outcome.rejected (Err.original rid))] }) := by
  simp [entryStep, h]

/-- C7, witness: a 500-status error in the initial state is passed
through unchanged. -/
theorem non_401_passthrough_witness :
    entryStep 0 false (some 500) (initState ⟨none, none⟩)
      = (EntryAction.passthrough,
         { initState ⟨none, none⟩ with
             outcomes := (initState ⟨none, none⟩).outcomes
               ++ [(0, Outcome.rejected (Err.original 0))] }) :=
  non_401_passthrough 0 false (some 500) (initState ⟨none, none⟩) (by decide)

/-- C8: on refresh success the replays of the requests queued during the
refresh are issued in the order the requests failed (FIFO) — the final
replay order is the queue order followed by the triggering request —
in both clients. -/
theorem fifo_replay (r0 : Nat) (rest : List Nat) (a : Option String)
    (su : Bool) (rt t r : String) :
    (runScenario (r0 :: rest) ⟨a, some rt⟩ (.ok true t r)).replays = rest ++ [r0]
    ∧ (runScenarioB (r0 :: rest) ⟨a, some rt⟩ (.ok su t r)).replays = rest ++ [r0] := by
  rw [runScenario_ok, runScenarioB_ok]
  exact ⟨rfl, rfl⟩

/-- C9, counterexample to the literal claim: a body that carries both
field-naming schemes at once — `{ success: true, data: { token: "t",
refreshToken: "r" }, accessToken: "t", refreshToken: "r" }` — makes the
two clients store the identical token pair, so "no single response body
yields the same stored token pair under both" is false. -/
theorem dual_schema_body_counterexample :
    storedPairA ⟨some true, some ⟨some "t", some "r"⟩, some "t", some "r"⟩
      = storedPairB ⟨some true, some ⟨some "t", some "r"⟩, some "t", some "r"⟩
    ∧ storedPairA ⟨some true, some ⟨some "t", some "r"⟩, some "t", some "r"⟩
      = some (some "t", some "r") := by
  decide

/-- C9, amended: the two clients parse the refresh response under
incompatible schemas and are not extensionally equal: on any body that
carries only client A's schema (a success-wrapped `data` object with at
least one token present, no top-level token fields) the two stored
pairs differ, and on any body that carries only client B's schema
(top-level tokens, no success wrapper) client A treats the refresh as
failed while client B stores the pair.  Only a body duplicating the
tokens under both schemas can make them agree. -/
theorem schema_mismatch_amended (t r : String) (d : RefreshData)
    (hd : d.token ≠ none ∨ d.refreshToken ≠ none) :
    storedPairA ⟨some true, some d, none, none⟩
      ≠ storedPairB ⟨some true, some d, none, none⟩
    ∧ storedPairA ⟨none, none, some t, some r⟩
      ≠ storedPairB ⟨none, none, some t, some r⟩ := by
  constructor
  · intro hEq
    simp [storedPairA, storedPairB] at hEq
    rcases hd with h | h
    · exact h hEq.1
    · exact h hEq.2
  · simp [storedPairA, storedPairB]

/-- C9, witness: the canonical client-A body is stored differently by
the two clients. -/
theorem schema_mismatch_amended_witness :
    storedPairA ⟨some true, some ⟨some "t", some "r"⟩, none, none⟩
      ≠ storedPairB ⟨some true, some ⟨some "t", some "r"⟩, none, none⟩ :=
  (schema_mismatch_amended "t" "r" ⟨some "t", some "r"⟩ (Or.inl (by decide))).1

/-- C10: `authService.refreshToken` is embedded as a total function (it
never throws: every path is covered), and: with no stored refresh token
it returns `false` leaving the store untouched; when the refresh call
throws or resolves with `success: false` it returns `false` with both
tokens cleared; on success it returns `true` with the new pair
stored. -/
theorem authService_refreshToken_total (a : Option String) (rt t r : String)
    (env : AuthRefreshEnv) :
    authRefreshToken ⟨a, none⟩ env = (false, ⟨a, none⟩)
    ∧ authRefreshToken ⟨a, some rt⟩ .thrown = (false, ⟨none, none⟩)
    ∧ authRefreshToken ⟨a, some rt⟩ (.resolved false t r) = (false, ⟨none, none⟩)
    ∧ authRefreshToken ⟨a, some rt⟩ (.resolved true t r) = (true, ⟨some t, some r⟩) := by
  exact ⟨rfl, rfl, rfl, rfl⟩
